import Mathlib

/-!
Verification development for the emotion-playlist core: the Result
Aggregator (`EmotionClassifier.classify` in `Sentiment Analysis/classify.py`),
the Mood Taxonomy (`EmotionClassifier.EMOTION_MAPPING`), the Engine Interop
Client (`call_cpp_engine` in `web/backend/routes/playlist_route.py`) and the
Orchestration Workflow (the Flask handlers `classify_emotion`,
`generate_playlist` and `generate_full_playlist`).

Modelling conventions:
* probability scores and thresholds are rationals (`ℚ`); Python's
  `round(x, 4)` is modelled as nearest-integer rounding at four decimals
  (`roundTo4`); the concrete inputs used below stay away from exact
  rounding ties, where binary floating point and rational rounding could
  disagree;
* the external inference engine is modelled by its output: the score
  distribution (`probs : List ℚ`) indexed against `EMOTION_LABELS`, exactly
  as the tensor `probs` in `classify.py`;
* the external subprocess is modelled by its observable outcome
  (`ProcOutcome`): launch failure (`FileNotFoundError`), timeout
  (`subprocess.TimeoutExpired`), or an exit with a return code and
  separately captured stdout/stderr (`capture_output=True`);
* Python's `json.loads` is modelled by `jsonLoads`, a parser for the JSON
  subset actually exchanged with the engine (objects, arrays, strings with
  the common escapes, integers, booleans, null); parse failures carry the
  CPython-style message `msg: line L column C (char P)`, which does not
  include the document text;
* Python exceptions are modelled by `Except String`, the string being the
  exception text `str(e)`, since the repository raises bare `Exception`
  objects distinguished only by their message.
-/

namespace EmotionPlaylist

/-- GoEmotions label vocabulary, `EmotionClassifier.EMOTION_LABELS`
(classify.py lines 24-30), in source order. -/
def EMOTION_LABELS : List String :=
  ["admiration", "amusement", "anger", "annoyance", "approval", "caring",
   "confusion", "curiosity", "desire", "disappointment", "disapproval",
   "disgust", "embarrassment", "excitement", "fear", "gratitude", "grief",
   "joy", "love", "nervousness", "optimism", "pride", "realization",
   "relief", "remorse", "sadness", "surprise", "neutral"]

/-- Mood taxonomy table, `EmotionClassifier.EMOTION_MAPPING`
(classify.py lines 33-62), in source order. -/
def EMOTION_MAPPING : List (String × String) :=
  [("joy", "happy"),
   ("amusement", "happy"),
   ("excitement", "excited"),
   ("optimism", "excited"),
   ("approval", "happy"),
   ("admiration", "happy"),
   ("gratitude", "happy"),
   ("love", "happy"),
   ("pride", "excited"),
   ("relief", "happy"),
   ("sadness", "sad"),
   ("grief", "sad"),
   ("disappointment", "sad"),
   ("remorse", "sad"),
   ("embarrassment", "sad"),
   ("nervousness", "sad"),
   ("fear", "sad"),
   ("anger", "sad"),
   ("annoyance", "sad"),
   ("disapproval", "sad"),
   ("disgust", "sad"),
   ("neutral", "neutral"),
   ("realization", "neutral"),
   ("confusion", "neutral"),
   ("curiosity", "neutral"),
   ("surprise", "excited"),
   ("desire", "excited"),
   ("caring", "happy")]

/-- Embeds `self.EMOTION_MAPPING.get(emotion_label, 'neutral')`
(classify.py line 134): dictionary lookup with default `neutral`. -/
def mapToMood (label : String) : String :=
  ((EMOTION_MAPPING.lookup label).getD "neutral")

/-- Embeds Python `round(score, 4)` (classify.py line 130): rounding to the
nearest multiple of `1/10000`. -/
def roundTo4 (q : ℚ) : ℚ := ((round (q * 10000) : ℤ) : ℚ) / 10000

/-- Embeds `torch.topk(probs, k)` (classify.py line 120): the `k` largest
entries of the distribution, paired with their indices, sorted by
descending score (ties kept in index order, a deterministic choice for
torch's unspecified tie order). -/
def topkSelect (probs : List ℚ) (k : Nat) : List (Nat × ℚ) :=
  ((probs.enum).insertionSort (fun a b => b.2 ≤ a.2)).take k

/-- Byte-wise lexicographic comparison step for strings, used to model
Python `sorted` on strings (code-point order). -/
def charLeb (a b : Char) : Bool := a.val ≤ b.val

/-- Lexicographic less-or-equal on character lists (Python string order). -/
def strLebGo : List Char → List Char → Bool
  | [], _ => true
  | _ :: _, [] => false
  | c :: cs, d :: ds => if c = d then strLebGo cs ds else charLeb c d

/-- Lexicographic less-or-equal on strings (Python string order). -/
def strLeb (a b : String) : Bool := strLebGo a.data b.data

/-- Insertion step of the model of Python `sorted` over strings. -/
def insertSorted (x : String) : List String → List String
  | [] => [x]
  | y :: ys => if strLeb x y then x :: y :: ys else y :: insertSorted x ys

/-- Model of Python `sorted` over lists of strings (stable insertion
sort under code-point order). -/
def sortStrs : List String → List String
  | [] => []
  | x :: xs => insertSorted x (sortStrs xs)

/-- Duplicate elimination (first occurrence kept); together with
`sortStrs` this models Python `sorted(list(some_set))`, whose result is
the sorted list of the distinct elements whatever the set iteration
order was. -/
def dedupAcc : List String → List String → List String
  | _, [] => []
  | seen, x :: xs =>
    if seen.contains x then dedupAcc seen xs else x :: dedupAcc (x :: seen) xs

/-- Embeds `sorted(list(simplified_emotions))` (classify.py line 140). -/
def sortedDedup (l : List String) : List String := sortStrs (dedupAcc [] l)

/-- Embeds the accumulation loop of `EmotionClassifier.classify`
(classify.py lines 125-135): for each top-k `(index, score)` pair, retain
it when `score >= threshold`, look the label up in `EMOTION_LABELS`
(an out-of-range index raises `IndexError`, as Python list indexing does),
store the label with the score rounded to 4 decimals, and accumulate the
mapped coarse mood. -/
def buildEmotions : List (Nat × ℚ) → ℚ → Except String (List (String × ℚ) × List String)
  | [], _ => .ok ([], [])
  | (idx, score) :: rest, threshold =>
    if score ≥ threshold then
      match EMOTION_LABELS[idx]? with
      | none => .error "IndexError: list index out of range"
      | some lab =>
        match buildEmotions rest threshold with
        | .error e => .error e
        | .ok (raws, moods) => .ok ((lab, roundTo4 score) :: raws, mapToMood lab :: moods)
    else
      buildEmotions rest threshold

/-- Result dictionary of `EmotionClassifier.classify`
(classify.py lines 137-143). -/
structure ClassifyResult where
  text : String
  raw_emotions : List (String × ℚ)
  simplified_emotions : List String
  dominant_emotion : String
  confidence : ℚ
  deriving DecidableEq

/-- Embeds the aggregation part of `EmotionClassifier.classify`
(classify.py lines 119-143), taking the inference engine's score
distribution as input: `k = min(top_k, len(probs))`; a negative `k` makes
`torch.topk` raise (`selected index k out of range`); otherwise the top-k
pairs are filtered by the threshold, labels are resolved and rounded
scores stored, the coarse-mood set is rendered sorted, and the dominant
label / confidence come from the first retained entry or default to
`neutral` / `0.0`. -/
def classify (text : String) (probs : List ℚ) (top_k : Int) (threshold : ℚ) :
    Except String ClassifyResult :=
  let k : Int := min top_k (probs.length : Int)
  if k < 0 then .error "selected index k out of range"
  else
    match buildEmotions (topkSelect probs k.toNat) threshold with
    | .error e => .error e
    | .ok (raws, moods) =>
      .ok ⟨text, raws, sortedDedup moods,
           (match raws with | [] => "neutral" | e :: _ => e.1),
           (match raws with | [] => 0 | e :: _ => e.2)⟩

/-- Parsed JSON values as produced by `json.loads` on the engine output
(numbers restricted to the integers actually exchanged with the engine). -/
inductive JVal where
  | null
  | bool (b : Bool)
  | num (n : Int)
  | str (s : String)
  | arr (elems : List JVal)
  | obj (fields : List (String × JVal))

/-- JSON whitespace characters skipped by the decoder. -/
def isJsonWs (c : Char) : Bool := c == ' ' || c == '\t' || c == '\n' || c == '\r'

/-- Consume leading JSON whitespace. -/
def skipWs : List Char → List Char
  | [] => []
  | c :: cs => if isJsonWs c then skipWs cs else c :: cs

/-- JSON string escape characters (the `\uXXXX` form is outside the
modelled subset; the engine output does not use it). -/
def escChar : Char → Option Char
  | '"' => some '"'
  | '\\' => some '\\'
  | '/' => some '/'
  | 'b' => some (Char.ofNat 8)
  | 'f' => some (Char.ofNat 12)
  | 'n' => some '\n'
  | 'r' => some '\r'
  | 't' => some '\t'
  | _ => none

/-- Parse the body of a JSON string after the opening quote, returning the
decoded characters and the rest of the input.  Errors carry a CPython-style
message and the character position it reports. -/
def parseStringBody (total startPos : Nat) : List Char → Except (String × Nat) (List Char × List Char)
  | [] => .error ("Unterminated string starting at", startPos)
  | c :: cs =>
    if c == '"' then .ok ([], cs)
    else if c == '\\' then
      match cs with
      | [] => .error ("Unterminated string starting at", startPos)
      | e :: cs2 =>
        match escChar e with
        | none => .error ("Invalid \\escape", total - cs.length)
        | some d =>
          match parseStringBody total startPos cs2 with
          | .error err => .error err
          | .ok (content, rest) => .ok (d :: content, rest)
    else if c.val < 32 then .error ("Invalid control character at", total - (c :: cs).length)
    else
      match parseStringBody total startPos cs with
      | .error err => .error err
      | .ok (content, rest) => .ok (c :: content, rest)

/-- Take a maximal run of decimal digits. -/
def takeDigits : List Char → (List Char × List Char)
  | [] => ([], [])
  | c :: cs =>
    if c.isDigit then
      match takeDigits cs with
      | (ds, rest) => (c :: ds, rest)
    else ([], c :: cs)

/-- Numeric value of a digit run. -/
def digitsToNat (ds : List Char) : Nat := ds.foldl (fun n c => 10 * n + (c.toNat - 48)) 0

/-- Parse a JSON integer (optional minus sign followed by digits). -/
def parseNum (total : Nat) (s : List Char) : Except (String × Nat) (Int × List Char) :=
  match s with
  | '-' :: rest =>
    match takeDigits rest with
    | ([], _) => .error ("Expecting value", total - s.length)
    | (ds, rest2) => .ok (-(digitsToNat ds : Int), rest2)
  | _ =>
    match takeDigits s with
    | ([], _) => .error ("Expecting value", total - s.length)
    | (ds, rest2) => .ok ((digitsToNat ds : Int), rest2)

mutual

/-- Parse one JSON value at the head of the input (fuel-indexed model of
the CPython scanner; `total` is the document length, used to report
character positions). -/
def parseVal (total : Nat) : Nat → List Char → Except (String × Nat) (JVal × List Char)
  | 0, s => .error ("Expecting value", total - s.length)
  | _ + 1, [] => .error ("Expecting value", total)
  | fuel + 1, c :: cs =>
    if c == '\x7b' then
      match skipWs cs with
      | '\x7d' :: rest => .ok (.obj [], rest)
      | s1 =>
        match parseMembers total fuel s1 with
        | .error e => .error e
        | .ok (fs, rest) => .ok (.obj fs, rest)
    else if c == '[' then
      match skipWs cs with
      | ']' :: rest => .ok (.arr [], rest)
      | s1 =>
        match parseItems total fuel s1 with
        | .error e => .error e
        | .ok (vs, rest) => .ok (.arr vs, rest)
    else if c == '"' then
      match parseStringBody total (total - (c :: cs).length) cs with
      | .error e => .error e
      | .ok (content, rest) => .ok (.str ⟨content⟩, rest)
    else if c == 't' then
      match cs with
      | 'r' :: 'u' :: 'e' :: rest => .ok (.bool true, rest)
      | _ => .error ("Expecting value", total - (c :: cs).length)
    else if c == 'f' then
      match cs with
      | 'a' :: 'l' :: 's' :: 'e' :: rest => .ok (.bool false, rest)
      | _ => .error ("Expecting value", total - (c :: cs).length)
    else if c == 'n' then
      match cs with
      | 'u' :: 'l' :: 'l' :: rest => .ok (.null, rest)
      | _ => .error ("Expecting value", total - (c :: cs).length)
    else if c == '-' || c.isDigit then
      match parseNum total (c :: cs) with
      | .error e => .error e
      | .ok (n, rest) => .ok (.num n, rest)
    else .error ("Expecting value", total - (c :: cs).length)

/-- Parse the comma-separated elements of a JSON array (positioned at the
first element). -/
def parseItems (total : Nat) : Nat → List Char → Except (String × Nat) (List JVal × List Char)
  | 0, s => .error ("Expecting value", total - s.length)
  | fuel + 1, s =>
    match parseVal total fuel s with
    | .error e => .error e
    | .ok (v, rest) =>
      match skipWs rest with
      | ']' :: r2 => .ok ([v], r2)
      | ',' :: r2 =>
        match parseItems total fuel (skipWs r2) with
        | .error e => .error e
        | .ok (vs, r3) => .ok (v :: vs, r3)
      | s1 => .error ("Expecting \x27,\x27 delimiter", total - s1.length)

/-- Parse the comma-separated members of a JSON object (positioned at the
first property name). -/
def parseMembers (total : Nat) : Nat → List Char → Except (String × Nat) (List (String × JVal) × List Char)
  | 0, s => .error ("Expecting property name enclosed in double quotes", total - s.length)
  | fuel + 1, s =>
    match s with
    | '"' :: cs =>
      match parseStringBody total (total - s.length) cs with
      | .error e => .error e
      | .ok (key, rest) =>
        match skipWs rest with
        | ':' :: r2 =>
          match parseVal total fuel (skipWs r2) with
          | .error e => .error e
          | .ok (v, r3) =>
            match skipWs r3 with
            | '\x7d' :: r4 => .ok ([(⟨key⟩, v)], r4)
            | ',' :: r4 =>
              match parseMembers total fuel (skipWs r4) with
              | .error e => .error e
              | .ok (fs, r5) => .ok ((⟨key⟩, v) :: fs, r5)
            | s2 => .error ("Expecting \x27,\x27 delimiter", total - s2.length)
        | s1 => .error ("Expecting \x27:\x27 delimiter", total - s1.length)
    | _ => .error ("Expecting property name enclosed in double quotes", total - s.length)

end

/-- Decimal rendering of a natural number (fuel-based so that it reduces
in the kernel). -/
def natToStrAux : Nat → Nat → List Char
  | 0, _ => []
  | fuel + 1, n =>
    if n < 10 then [Char.ofNat (48 + n)]
    else natToStrAux fuel (n / 10) ++ [Char.ofNat (48 + n % 10)]

/-- Decimal rendering of a natural number. -/
def natToStr (n : Nat) : String := ⟨natToStrAux (n + 1) n⟩

/-- Number of newline characters in a character list. -/
def countNl (cs : List Char) : Nat := cs.foldl (fun n c => if c == '\n' then n + 1 else n) 0

/-- Column number reported by `json.JSONDecodeError` for a character
position: characters since the last newline, 1-based. -/
def colOf (cs : List Char) (pos : Nat) : Nat :=
  ((cs.take pos).reverse.takeWhile (fun c => !(c == '\n'))).length + 1

/-- CPython rendering of a `json.JSONDecodeError`:
`msg: line L column C (char P)`.  The raw document text never appears in
the message. -/
def fmtJsonErr (cs : List Char) (msg : String) (pos : Nat) : String :=
  msg ++ ": line " ++ natToStr (countNl (cs.take pos) + 1) ++ " column " ++
    natToStr (colOf cs pos) ++ " (char " ++ natToStr pos ++ ")"

/-- Model of Python `json.loads` on the engine's stdout: skip leading
whitespace, parse one value, require only whitespace after it, and render
decode errors the way `str(json.JSONDecodeError)` does. -/
def jsonLoads (input : String) : Except String JVal :=
  let cs := input.data
  let total := cs.length
  match parseVal total (2 * total + 2) (skipWs cs) with
  | .error (msg, pos) => .error (fmtJsonErr cs msg pos)
  | .ok (v, rest) =>
    match skipWs rest with
    | [] => .ok v
    | rest2 => .error (fmtJsonErr cs "Extra data" (total - rest2.length))

/-- Observable outcome of the subprocess invocation in `call_cpp_engine`
(playlist_route.py lines 41-46): the executable could not be launched
(`FileNotFoundError`), the 10-second timeout fired
(`subprocess.TimeoutExpired`), or the process exited with a return code
and separately captured stdout and stderr (`capture_output=True`). -/
inductive ProcOutcome where
  | launchFailure
  | timedOut
  | exited (returncode : Int) (stdout stderr : String)

/-- Path to the engine executable, `CPP_EXECUTABLE`
(playlist_route.py lines 14-17): `os.path.join` of the route file's
directory with `../../../cpp/build/emotion_playlist.exe` (the directory
prefix is resolved at runtime; the repository-relative form is used
here). -/
def CPP_EXECUTABLE : String := "web/backend/routes/../../../cpp/build/emotion_playlist.exe"

/-- Path to the song catalog, `SONGS_CSV` (playlist_route.py lines 20-23). -/
def SONGS_CSV : String := "web/backend/routes/../../../data/songs.csv"

/-- Embeds `','.join(emotions)` (playlist_route.py line 38). -/
def commaJoin : List String → String
  | [] => ""
  | [m] => m
  | m :: ms => m ++ "," ++ commaJoin ms

/-- Argument vector passed to `subprocess.run`
(playlist_route.py line 42): the executable followed by exactly two
positional arguments, the catalog path and the comma-joined moods. -/
def cppCommand (emotions : List String) : List String :=
  [CPP_EXECUTABLE, SONGS_CSV, commaJoin emotions]

/-- Embeds `call_cpp_engine` (playlist_route.py lines 26-62).  The
exception raised in each failure case is modelled by its message text:
a non-zero exit raises `C++ engine error: {stderr}` inside the `try`,
which the final generic `except Exception` handler re-wraps once more;
the `TimeoutExpired`, `JSONDecodeError` and `FileNotFoundError` handlers
re-raise directly.  On a zero exit the stdout is parsed as JSON and
returned as-is. -/
def call_cpp_engine (emotions : List String) (outcome : ProcOutcome) : Except String JVal :=
  let _argv := cppCommand emotions
  match outcome with
  | .launchFailure => .error ("C++ executable not found at " ++ CPP_EXECUTABLE)
  | .timedOut => .error "C++ engine timeout"
  | .exited code out err =>
    if code ≠ 0 then
      .error ("C++ engine error: " ++ ("C++ engine error: " ++ err))
    else
      match jsonLoads out with
      | .error m => .error ("Failed to parse C++ output: " ++ m)
      | .ok v => .ok v

/-- Python whitespace stripped by `str.strip()`. -/
def isPyWs (c : Char) : Bool :=
  c == ' ' || c == '\t' || c == '\n' || c == '\r' || c == '\x0b' || c == '\x0c'

/-- Model of Python `str.strip()`: drop leading and trailing whitespace. -/
def pyStrip (s : String) : String :=
  ⟨((s.data.dropWhile isPyWs).reverse.dropWhile isPyWs).reverse⟩

/-- A JSON request field value: a string, or some non-string JSON value
(whose precise shape the handlers never inspect beyond `isinstance`). -/
inductive ReqVal where
  | str (s : String)
  | other

/-- Request body of the classify endpoint after `request.get_json()`:
the optional `text` field and the `top_k` / `threshold` values
(`data.get` defaults 3 and 0.1 already applied). -/
structure ClassifyBody where
  text : Option ReqVal
  top_k : Int
  threshold : ℚ

/-- The `emotions` field of a playlist request: missing, present but not
a list, or a list of JSON values. -/
inductive EmotionsField where
  | absent
  | nonList
  | list (xs : List ReqVal)

/-- Request body of the playlist endpoint. -/
structure PlaylistBody where
  emotions : EmotionsField

/-- Request body of the full-pipeline endpoint. -/
structure FullBody where
  text : Option ReqVal
  top_k : Int
  threshold : ℚ

/-- Response body of a handler: a success payload of the respective
endpoint, or the uniform error envelope
`{'error': kind, 'message': message}`. -/
inductive Body where
  | classifyOk (r : ClassifyResult)
  | playlistOk (emotions : List String) (songs : JVal) (count : JVal)
  | fullOk (text : String) (classification : ClassifyResult)
      (emotions : List String) (songs : JVal) (count : JVal)
  | envelope (error message : String)

/-- Python `dict`-building from JSON object pairs keeps the last value for
a duplicated key; field access uses that dictionary. -/
def lookupField (fs : List (String × JVal)) (key : String) : Option JVal :=
  fs.foldl (fun acc kv => if kv.1 == key then some kv.2 else acc) none

/-- Embeds Python subscription `value[key]` on a parsed JSON value:
a missing key raises `KeyError` (whose `str` is the quoted key), and
subscripting a non-dict raises `TypeError`. -/
def getItem (v : JVal) (key : String) : Except String JVal :=
  match v with
  | .obj fs =>
    match lookupField fs key with
    | some x => .ok x
    | none => .error ("\x27" ++ key ++ "\x27")
  | .arr _ => .error "list indices must be integers or slices, not str"
  | .str _ => .error "string indices must be integers"
  | .num _ => .error "\x27int\x27 object is not subscriptable"
  | .bool _ => .error "\x27bool\x27 object is not subscriptable"
  | .null => .error "\x27NoneType\x27 object is not subscriptable"

/-- Embeds the `classify_emotion` handler (classify_route.py lines 29-86)
on a POST request: reject a missing body or missing `text` field, reject a
non-string or blank `text`, then call the classifier; any exception is
answered with the generic 500 envelope carrying `str(e)`.  The inference
engine's distribution for the text is passed explicitly. -/
def classify_emotion (data : Option ClassifyBody) (probs : List ℚ) : Nat × Body :=
  match data with
  | none => (400, .envelope "Bad Request" "Missing required field: text")
  | some body =>
    match body.text with
    | none => (400, .envelope "Bad Request" "Missing required field: text")
    | some .other => (400, .envelope "Bad Request" "text must be a non-empty string")
    | some (.str t) =>
      if pyStrip t == "" then (400, .envelope "Bad Request" "text must be a non-empty string")
      else
        match classify t probs body.top_k body.threshold with
        | .error e => (500, .envelope "Internal Server Error" e)
        | .ok r => (200, .classifyOk r)

/-- Validation loop of `generate_playlist` (playlist_route.py lines
113-119): every entry must be a string with non-blank `strip()`; the
validated strings are returned unchanged. -/
def allValidStrings : List ReqVal → Option (List String)
  | [] => some []
  | .str s :: rest =>
    if pyStrip s == "" then none
    else (allValidStrings rest).map (fun l => s :: l)
  | .other :: _ => none

/-- Embeds the `generate_playlist` handler
(playlist_route.py lines 65-138) on a POST request: validate the
`emotions` field, invoke the engine, and assemble
`{emotions, songs, count}` from the parsed engine output; any exception
is answered with the generic 500 envelope carrying `str(e)`. -/
def generate_playlist (data : Option PlaylistBody) (outcome : ProcOutcome) : Nat × Body :=
  match data with
  | none => (400, .envelope "Bad Request" "Missing required field: emotions")
  | some body =>
    match body.emotions with
    | .absent => (400, .envelope "Bad Request" "Missing required field: emotions")
    | .nonList => (400, .envelope "Bad Request" "emotions must be a non-empty list")
    | .list xs =>
      if xs.isEmpty then (400, .envelope "Bad Request" "emotions must be a non-empty list")
      else
        match allValidStrings xs with
        | none => (400, .envelope "Bad Request" "All emotions must be non-empty strings")
        | some emotions =>
          match call_cpp_engine emotions outcome with
          | .error e => (500, .envelope "Internal Server Error" e)
          | .ok j =>
            match getItem j "songs" with
            | .error e => (500, .envelope "Internal Server Error" e)
            | .ok songs =>
              match getItem j "count" with
              | .error e => (500, .envelope "Internal Server Error" e)
              | .ok count => (200, .playlistOk emotions songs count)

/-- Embeds the mood normalization of `generate_full_playlist`
(playlist_route.py lines 197-201): an empty `simplified_emotions` list is
replaced by `['neutral']` before the engine is invoked. -/
def pipelineEmotions (c : ClassifyResult) : List String :=
  if c.simplified_emotions.isEmpty then ["neutral"] else c.simplified_emotions

/-- Message of the `TypeError` the tokenizer raises when `classify` is
called with a non-string text (modelled; the full pipeline handler does
not validate `text` itself). -/
def tokenizerTypeError : String := "text input must be of type str"

/-- Embeds the `generate_full_playlist` handler
(playlist_route.py lines 141-229) on a POST request: require `text`,
classify, substitute `['neutral']` for an empty mood list, invoke the
engine, and assemble the combined response; any exception is answered
with the generic 500 envelope carrying `str(e)`. -/
def generate_full_playlist (data : Option FullBody) (probs : List ℚ) (outcome : ProcOutcome) :
    Nat × Body :=
  match data with
  | none => (400, .envelope "Bad Request" "Missing required field: text")
  | some body =>
    match body.text with
    | none => (400, .envelope "Bad Request" "Missing required field: text")
    | some .other => (500, .envelope "Internal Server Error" tokenizerTypeError)
    | some (.str t) =>
      match classify t probs body.top_k body.threshold with
      | .error e => (500, .envelope "Internal Server Error" e)
      | .ok c =>
        let emotions := pipelineEmotions c
        match call_cpp_engine emotions outcome with
        | .error e => (500, .envelope "Internal Server Error" e)
        | .ok j =>
          match getItem j "songs" with
          | .error e => (500, .envelope "Internal Server Error" e)
          | .ok songs =>
            match getItem j "count" with
            | .error e => (500, .envelope "Internal Server Error" e)
            | .ok count => (200, .fullOk t c emotions songs count)

/-! Helper definitions used to state the aggregator theorems: the
retained top-k pairs and the shapes of the result fields. -/

/-- The top-k `(index, score)` pairs that survive the threshold test
(the test is on the raw, unrounded score, matching classify.py line 126). -/
def retained (probs : List ℚ) (top_k : Int) (threshold : ℚ) : List (Nat × ℚ) :=
  (topkSelect probs (min top_k (probs.length : Int)).toNat).filter (fun p => threshold ≤ p.2)

/-- Label of a retained pair (in-range indices only are ever used). -/
def labelOf (p : Nat × ℚ) : String := EMOTION_LABELS.getD p.1 ""

/-- Shape of `raw_emotions`: retained labels with rounded scores. -/
def rawOf (probs : List ℚ) (top_k : Int) (threshold : ℚ) : List (String × ℚ) :=
  (retained probs top_k threshold).map (fun p => (labelOf p, roundTo4 p.2))

/-- Moods accumulated from the retained labels, in retention order. -/
def moodsOf (probs : List ℚ) (top_k : Int) (threshold : ℚ) : List String :=
  (retained probs top_k threshold).map (fun p => mapToMood (labelOf p))

/-- The classification result produced on the success path. -/
def specResult (text : String) (probs : List ℚ) (top_k : Int) (threshold : ℚ) : ClassifyResult :=
  ⟨text, rawOf probs top_k threshold, sortedDedup (moodsOf probs top_k threshold),
   (match rawOf probs top_k threshold with | [] => "neutral" | e :: _ => e.1),
   (match rawOf probs top_k threshold with | [] => 0 | e :: _ => e.2)⟩

theorem mem_topkSelect {probs : List ℚ} {k : Nat} {p : Nat × ℚ}
    (hp : p ∈ topkSelect probs k) : p.1 < probs.length ∧ p.2 ∈ probs := by
  have h1 : p ∈ (probs.enum).insertionSort (fun a b => b.2 ≤ a.2) :=
    List.take_subset _ _ hp
  have h2 : p ∈ probs.enum := (List.perm_insertionSort _ _).mem_iff.mp h1
  obtain ⟨i, x⟩ := p
  obtain ⟨hlt, hx⟩ := List.mem_enum h2
  exact ⟨hlt, hx ▸ List.getElem_mem hlt⟩

theorem length_topkSelect (probs : List ℚ) (k : Nat) :
    (topkSelect probs k).length ≤ min k probs.length := by
  unfold topkSelect
  rw [List.length_take, (List.perm_insertionSort _ _).length_eq, List.enum_length]

theorem buildEmotions_eq (threshold : ℚ) (pairs : List (Nat × ℚ))
    (h : ∀ p ∈ pairs, p.1 < EMOTION_LABELS.length) :
    buildEmotions pairs threshold =
      .ok ((pairs.filter (fun p => threshold ≤ p.2)).map
             (fun p => (EMOTION_LABELS.getD p.1 "", roundTo4 p.2)),
           (pairs.filter (fun p => threshold ≤ p.2)).map
             (fun p => mapToMood (EMOTION_LABELS.getD p.1 ""))) := by
  induction pairs with
  | nil => rfl
  | cons hd tl ih =>
    obtain ⟨idx, score⟩ := hd
    have hidx : idx < EMOTION_LABELS.length := h (idx, score) (List.mem_cons_self _ _)
    have ih2 := ih (fun p hp => h p (List.mem_cons_of_mem _ hp))
    by_cases hs : threshold ≤ score
    · simp only [buildEmotions, ge_iff_le, if_pos hs, List.getElem?_eq_getElem hidx, ih2,
        List.filter_cons, List.getD_eq_getElem?_getD]
      simp [hs, List.getElem?_eq_getElem hidx]
    · simp only [buildEmotions, ge_iff_le, if_neg hs, ih2, List.filter_cons]
      simp [hs]

theorem classify_ok (text : String) (probs : List ℚ) (top_k : Int) (threshold : ℚ)
    (hk : 0 ≤ top_k) (hv : probs.length ≤ EMOTION_LABELS.length) :
    classify text probs top_k threshold = .ok (specResult text probs top_k threshold) := by
  have hk2 : ¬ (min top_k (probs.length : Int) < 0) := by
    push_neg
    exact le_min hk (Int.ofNat_nonneg _)
  have hmem : ∀ p ∈ topkSelect probs (min top_k (probs.length : Int)).toNat,
      p.1 < EMOTION_LABELS.length := fun p hp =>
    lt_of_lt_of_le (mem_topkSelect hp).1 hv
  simp only [classify, if_neg hk2, buildEmotions_eq threshold _ hmem]
  rfl

theorem lookup_eq_none_of_keys {β : Type} {l : List (String × β)} {k : String}
    (h : ∀ p ∈ l, p.1 ≠ k) : List.lookup k l = none := by
  induction l with
  | nil => rfl
  | cons hd tl ih =>
    obtain ⟨a, b⟩ := hd
    have hne : a ≠ k := h (a, b) (List.mem_cons_self _ _)
    have hbeq : (k == a) = false := beq_eq_false_iff_ne.mpr (fun he => hne he.symm)
    simp only [List.lookup, hbeq]
    exact ih (fun p hp => h p (List.mem_cons_of_mem _ hp))

theorem mem_of_lookup {β : Type} {l : List (String × β)} {k : String} {v : β}
    (h : List.lookup k l = some v) : (k, v) ∈ l := by
  induction l with
  | nil => simp [List.lookup] at h
  | cons hd tl ih =>
    obtain ⟨a, b⟩ := hd
    by_cases hbeq : (k == a) = true
    · have hak : k = a := eq_of_beq hbeq
      simp only [List.lookup, hbeq] at h
      obtain rfl : b = v := by exact Option.some.inj h
      exact hak ▸ List.mem_cons_self _ _
    · have hbeq2 : (k == a) = false := by simpa using hbeq
      simp only [List.lookup, hbeq2] at h
      exact List.mem_cons_of_mem _ (ih h)

theorem retained_le_threshold (probs : List ℚ) (top_k : Int) (threshold : ℚ) :
    ∀ p ∈ retained probs top_k threshold, threshold ≤ p.2 := by
  intro p hp
  have := List.of_mem_filter hp
  exact of_decide_eq_true this

theorem roundTo4_ge (q : ℚ) : q - 1/20000 ≤ roundTo4 q := by
  have h := abs_sub_round (q * 10000)
  rw [abs_le] at h
  have h1 : q * 10000 - (round (q * 10000) : ℚ) ≤ 1/2 := h.2
  unfold roundTo4
  linarith

/-- C9: the mood taxonomy is given by the single table `EMOTION_MAPPING`:
every table entry maps to its listed mood and to nothing else (the keys
are pairwise distinct), a label outside the table maps to `neutral`, and
every label maps to exactly one of the four coarse moods. -/
theorem mood_taxonomy_total :
    (∀ p ∈ EMOTION_MAPPING, mapToMood p.1 = p.2) ∧
    ((EMOTION_MAPPING.map Prod.fst).Nodup) ∧
    (∀ label, (∀ p ∈ EMOTION_MAPPING, p.1 ≠ label) → mapToMood label = "neutral") ∧
    (∀ label, mapToMood label = "happy" ∨ mapToMood label = "sad" ∨
      mapToMood label = "excited" ∨ mapToMood label = "neutral") := by
  refine ⟨by decide, by decide, ?_, ?_⟩
  · intro label h
    have : EMOTION_MAPPING.lookup label = none :=
      lookup_eq_none_of_keys (fun p hp => h p hp)
    simp [mapToMood, this]
  · intro label
    rcases hl : EMOTION_MAPPING.lookup label with _ | v
    · simp [mapToMood, hl]
    · have hmem : (label, v) ∈ EMOTION_MAPPING := mem_of_lookup hl
      have hall : ∀ p ∈ EMOTION_MAPPING, p.2 = "happy" ∨ p.2 = "sad" ∨
          p.2 = "excited" ∨ p.2 = "neutral" := by decide
      have : mapToMood label = v := by simp [mapToMood, hl]
      rw [this]
      exact hall _ hmem

/-- Witness for C9 at concrete labels: a known label maps to its table
mood, an unknown label maps to `neutral`. -/
theorem mood_taxonomy_total_witness :
    mapToMood "joy" = "happy" ∧ mapToMood "zzz" = "neutral" :=
  ⟨mood_taxonomy_total.1 ("joy", "happy") (by decide),
   mood_taxonomy_total.2.2.1 "zzz" (by decide)⟩

/-- C1 (counterexample to the claim as stated): with the single-entry
distribution `[0.12344]` and threshold `0.12342`, the entry is retained
(its raw score passes the threshold), but the score stored in
`raw_emotions` is the rounded `0.1234`, which is strictly below the
threshold — so not every retained entry has score >= threshold. -/
theorem aggregator_threshold_counterexample :
    classify "t" [12344/100000] 1 (12342/100000) =
      .ok ⟨"t", [("admiration", 1234/10000)], ["happy"], "admiration", 1234/10000⟩ ∧
    ¬ ((12342 : ℚ)/100000 ≤ 1234/10000) ∧
    ((12342 : ℚ)/100000 ≤ 12344/100000) := by
  refine ⟨?_, by norm_num, by norm_num⟩
  simp only [classify, topkSelect, buildEmotions, roundTo4, mapToMood, EMOTION_MAPPING,
    List.lookup, sortedDedup, dedupAcc, sortStrs, insertSorted, EMOTION_LABELS,
    List.insertionSort, List.orderedInsert, List.enum, List.enumFrom, List.take]
  norm_num [round_eq]
  rfl

/-- C1 (amended): for a positive `topK` and a distribution over the label
vocabulary, `classify` succeeds and its `raw_emotions` has length at most
`min(topK, len(distribution))`; each retained entry corresponds to a raw
score that is `>= threshold` (the stored score is that raw score rounded
to 4 decimals, hence `>= threshold - 1/20000` but possibly below the
threshold itself), and a threshold strictly greater than every score
yields an empty retained sequence. -/
theorem aggregator_topk_threshold (text : String) (probs : List ℚ) (top_k : Int)
    (threshold : ℚ) (hk : 0 < top_k) (hv : probs.length ≤ EMOTION_LABELS.length) :
    ∃ r, classify text probs top_k threshold = .ok r ∧
      r.raw_emotions.length ≤ min top_k.toNat probs.length ∧
      r.raw_emotions = (retained probs top_k threshold).map
          (fun p => (labelOf p, roundTo4 p.2)) ∧
      (∀ p ∈ retained probs top_k threshold, threshold ≤ p.2) ∧
      (∀ e ∈ r.raw_emotions, threshold - 1/20000 ≤ e.2) ∧
      ((∀ q ∈ probs, q < threshold) → r.raw_emotions = []) := by
  refine ⟨specResult text probs top_k threshold,
    classify_ok text probs top_k threshold (le_of_lt hk) hv, ?_, rfl,
    retained_le_threshold probs top_k threshold, ?_, ?_⟩
  · have h1 : (rawOf probs top_k threshold).length = (retained probs top_k threshold).length :=
      List.length_map _ _
    have h2 : (retained probs top_k threshold).length ≤
        (topkSelect probs (min top_k (probs.length : Int)).toNat).length :=
      List.length_filter_le _ _
    have h3 := length_topkSelect probs (min top_k (probs.length : Int)).toNat
    have h4 : (min top_k (probs.length : Int)).toNat = min top_k.toNat probs.length := by
      omega
    show (rawOf probs top_k threshold).length ≤ min top_k.toNat probs.length
    omega
  · intro e he
    obtain ⟨p, hp, hpe⟩ := List.mem_map.mp he
    have h1 : threshold ≤ p.2 := retained_le_threshold probs top_k threshold p hp
    have h2 : p.2 - 1/20000 ≤ roundTo4 p.2 := roundTo4_ge p.2
    have : e.2 = roundTo4 p.2 := by rw [← hpe]
    rw [this]
    linarith
  · intro hall
    show rawOf probs top_k threshold = []
    unfold rawOf
    rw [List.map_eq_nil_iff]
    unfold retained
    rw [List.filter_eq_nil_iff]
    intro p hp
    have hmem : p.2 ∈ probs := (mem_topkSelect hp).2
    have := hall p.2 hmem
    simp only [decide_eq_true_eq]
    linarith

/-- Witness for C1 (amended) at a concrete input: distribution `[0.82]`,
`topK = 1`, threshold `0.1`. -/
theorem aggregator_topk_threshold_witness :
    ∃ r, classify "t" [82/100] 1 (1/10) = .ok r ∧
      r.raw_emotions.length ≤ min (Int.toNat 1) (List.length [(82 : ℚ)/100]) ∧
      r.raw_emotions = (retained [82/100] 1 (1/10)).map
          (fun p => (labelOf p, roundTo4 p.2)) ∧
      (∀ p ∈ retained [82/100] 1 (1/10), (1 : ℚ)/10 ≤ p.2) ∧
      (∀ e ∈ r.raw_emotions, (1 : ℚ)/10 - 1/20000 ≤ e.2) ∧
      ((∀ q ∈ [(82 : ℚ)/100], q < 1/10) → r.raw_emotions = []) :=
  aggregator_topk_threshold "t" [82/100] 1 (1/10) (by norm_num) (by norm_num [EMOTION_LABELS])

/-- C2: on the success path the dominant label and confidence are exactly
the label and (stored) score of the first retained entry, and default to
`neutral` and `0.0` when nothing is retained. -/
theorem dominant_confidence_invariant (text : String) (probs : List ℚ) (top_k : Int)
    (threshold : ℚ) (hk : 0 ≤ top_k) (hv : probs.length ≤ EMOTION_LABELS.length) :
    ∃ r, classify text probs top_k threshold = .ok r ∧
      (∀ e es, r.raw_emotions = e :: es →
        r.dominant_emotion = e.1 ∧ r.confidence = e.2) ∧
      (r.raw_emotions = [] → r.dominant_emotion = "neutral" ∧ r.confidence = 0) := by
  refine ⟨specResult text probs top_k threshold,
    classify_ok text probs top_k threshold hk hv, ?_, ?_⟩
  · intro e es he
    have h2 : rawOf probs top_k threshold = e :: es := he
    exact ⟨by simp [specResult, h2], by simp [specResult, h2]⟩
  · intro he
    have h2 : rawOf probs top_k threshold = [] := he
    exact ⟨by simp [specResult, h2], by simp [specResult, h2]⟩

/-- Witness for C2 at a concrete input: the empty distribution retains
nothing, so the dominant label defaults to `neutral` and the confidence
to `0.0`. -/
theorem dominant_confidence_invariant_witness :
    ∃ r, classify "t" [] 3 (1/10) = .ok r ∧
      (∀ e es, r.raw_emotions = e :: es →
        r.dominant_emotion = e.1 ∧ r.confidence = e.2) ∧
      (r.raw_emotions = [] → r.dominant_emotion = "neutral" ∧ r.confidence = 0) :=
  dominant_confidence_invariant "t" [] 3 (1/10) (by norm_num) (by norm_num [EMOTION_LABELS])

/-- C10: the threshold test uses the raw score while the stored score is
rounded to 4 decimal places: on the success path `raw_emotions` is the
map of `roundTo4` over the retained raw pairs, all of whose raw scores
pass the threshold; and at the concrete distribution `[0.12346]` with
threshold `0.1` the stored score `0.1235` differs from the raw score
`0.12346` that passed the test. -/
theorem rounding_after_threshold :
    (∀ (text : String) (probs : List ℚ) (top_k : Int) (threshold : ℚ),
        0 ≤ top_k → probs.length ≤ EMOTION_LABELS.length →
        ∃ r, classify text probs top_k threshold = .ok r ∧
          r.raw_emotions = (retained probs top_k threshold).map
              (fun p => (labelOf p, roundTo4 p.2)) ∧
          (∀ p ∈ retained probs top_k threshold, threshold ≤ p.2)) ∧
    (classify "t" [12346/100000] 1 (1/10) =
        .ok ⟨"t", [("admiration", 1235/10000)], ["happy"], "admiration", 1235/10000⟩ ∧
      ((1235 : ℚ)/10000 ≠ 12346/100000) ∧ ((1 : ℚ)/10 ≤ 12346/100000)) := by
  constructor
  · intro text probs top_k threshold hk hv
    exact ⟨specResult text probs top_k threshold,
      classify_ok text probs top_k threshold hk hv, rfl,
      retained_le_threshold probs top_k threshold⟩
  · refine ⟨?_, by norm_num, by norm_num⟩
    simp only [classify, topkSelect, buildEmotions, roundTo4, mapToMood, EMOTION_MAPPING,
      List.lookup, sortedDedup, dedupAcc, sortStrs, insertSorted, EMOTION_LABELS,
      List.insertionSort, List.orderedInsert, List.enum, List.enumFrom, List.take]
    norm_num [round_eq]
    rfl

/-- Witness for C10 at a concrete input (the empty distribution). -/
theorem rounding_after_threshold_witness :
    ∃ r, classify "t" [] 3 (1/10) = .ok r ∧
      r.raw_emotions = (retained [] 3 (1/10)).map
          (fun p => (labelOf p, roundTo4 p.2)) ∧
      (∀ p ∈ retained [] 3 (1/10), (1 : ℚ)/10 ≤ p.2) :=
  rounding_after_threshold.1 "t" [] 3 (1/10) (by norm_num) (by norm_num [EMOTION_LABELS])

/-- C3: the aggregator renders the accumulated mood set sorted and does
NOT substitute `neutral` for an empty set (an empty retained sequence
gives an empty `simplified_emotions`); the full-pipeline handler
substitutes `['neutral']` for an empty list before invoking the engine
(`pipelineEmotions`), which is never empty, and a successful full-pipeline
response always carries exactly that substituted list. -/
theorem mood_substitution_split :
    (∀ (text : String) (probs : List ℚ) (top_k : Int) (threshold : ℚ),
        0 ≤ top_k → probs.length ≤ EMOTION_LABELS.length →
        ∃ r, classify text probs top_k threshold = .ok r ∧
          r.simplified_emotions = sortedDedup (moodsOf probs top_k threshold) ∧
          (r.raw_emotions = [] → r.simplified_emotions = [])) ∧
    (∀ c : ClassifyResult, pipelineEmotions c ≠ [] ∧
      (c.simplified_emotions = [] → pipelineEmotions c = ["neutral"]) ∧
      (c.simplified_emotions ≠ [] → pipelineEmotions c = c.simplified_emotions)) ∧
    (∀ (data : Option FullBody) (probs : List ℚ) (outcome : ProcOutcome)
        (t : String) (c : ClassifyResult) (ems : List String) (songs count : JVal),
        generate_full_playlist data probs outcome = (200, .fullOk t c ems songs count) →
        ems = pipelineEmotions c) := by
  refine ⟨?_, ?_, ?_⟩
  · intro text probs top_k threshold hk hv
    refine ⟨specResult text probs top_k threshold,
      classify_ok text probs top_k threshold hk hv, rfl, ?_⟩
    intro he
    have h2 : rawOf probs top_k threshold = [] := he
    have h3 : retained probs top_k threshold = [] := List.map_eq_nil_iff.mp h2
    show sortedDedup (moodsOf probs top_k threshold) = []
    unfold moodsOf
    rw [h3]
    rfl
  · intro c
    by_cases h : c.simplified_emotions.isEmpty
    · have hemp : c.simplified_emotions = [] := List.isEmpty_iff.mp h
      refine ⟨?_, fun _ => ?_, fun hne => absurd hemp hne⟩
      · simp [pipelineEmotions, h]
      · simp [pipelineEmotions, h]
    · have hne : c.simplified_emotions ≠ [] := by
        intro he
        exact h (by simp [he])
      refine ⟨?_, fun he => absurd he hne, fun _ => ?_⟩
      · simpa [pipelineEmotions, h] using hne
      · simp [pipelineEmotions, h]
  · intro data probs outcome t c ems songs count h
    rcases data with _ | body
    · simp [generate_full_playlist] at h
    · rcases body with ⟨text0, tk, th⟩
      rcases text0 with _ | tv
      · simp [generate_full_playlist] at h
      · rcases tv with t0 | _
        · rcases hc : classify t0 probs tk th with e | c0
          · simp [generate_full_playlist, hc] at h
          · rcases ho : call_cpp_engine (pipelineEmotions c0) outcome with e | j
            · simp [generate_full_playlist, hc, ho] at h
            · rcases hs : getItem j "songs" with e | songs0
              · simp [generate_full_playlist, hc, ho, hs] at h
              · rcases hn : getItem j "count" with e | count0
                · simp [generate_full_playlist, hc, ho, hs, hn] at h
                · simp only [generate_full_playlist, hc, ho, hs, hn,
                    Prod.mk.injEq, Body.fullOk.injEq] at h
                  obtain ⟨-, -, hcc, hee, -, -⟩ := h
                  rw [← hee, ← hcc]
        · simp [generate_full_playlist] at h

/-- Witness for C3 at concrete inputs: the empty distribution yields an
empty mood list from the aggregator, and the pipeline substitutes
`['neutral']` for an empty mood list. -/
theorem mood_substitution_split_witness :
    (∃ r, classify "t" [] 3 (1/10) = .ok r ∧
      r.simplified_emotions = sortedDedup (moodsOf [] 3 (1/10)) ∧
      (r.raw_emotions = [] → r.simplified_emotions = [])) ∧
    pipelineEmotions ⟨"t", [], [], "neutral", 0⟩ = ["neutral"] :=
  ⟨mood_substitution_split.1 "t" [] 3 (1/10) (by norm_num) (by norm_num [EMOTION_LABELS]),
   (mood_substitution_split.2.1 ⟨"t", [], [], "neutral", 0⟩).2.1 rfl⟩

/-- C4 (amended): every invocation either succeeds (zero exit with
parseable stdout, returning the parsed value) or fails with exactly one
of four distinguishable errors, each tied to its own condition: a launch
failure gives the not-found message (distinct from a non-zero exit), a
timeout gives the timeout message, a non-zero exit gives the engine-error
message carrying the captured stderr (stdout is not parsed, so the result
does not depend on it; the generic handler wraps the message twice), and
a zero exit with unparseable stdout gives the parse-failure message
carrying the JSON parser's error description (not the raw output). -/
theorem interop_error_classification :
    (∀ emotions, call_cpp_engine emotions .launchFailure =
        .error ("C++ executable not found at " ++ CPP_EXECUTABLE)) ∧
    (∀ emotions, call_cpp_engine emotions .timedOut = .error "C++ engine timeout") ∧
    (∀ emotions (code : Int) out err, code ≠ 0 →
        call_cpp_engine emotions (.exited code out err) =
          .error ("C++ engine error: " ++ ("C++ engine error: " ++ err))) ∧
    (∀ emotions out err m, jsonLoads out = .error m →
        call_cpp_engine emotions (.exited 0 out err) =
          .error ("Failed to parse C++ output: " ++ m)) ∧
    (∀ emotions out err v, jsonLoads out = .ok v →
        call_cpp_engine emotions (.exited 0 out err) = .ok v) := by
  refine ⟨fun _ => rfl, fun _ => rfl, ?_, ?_, ?_⟩
  · intro emotions code out err hc
    simp [call_cpp_engine, hc]
  · intro emotions out err m hm
    simp [call_cpp_engine, hm]
  · intro emotions out err v hv
    simp [call_cpp_engine, hv]

/-- Witness for C4 (amended) at concrete outcomes: a non-zero exit
carries the stderr text, a zero exit with unparseable stdout carries the
parse error description. -/
theorem interop_error_classification_witness :
    call_cpp_engine ["happy"] (.exited 1 "ignored" "boom") =
      .error ("C++ engine error: " ++ ("C++ engine error: " ++ "boom")) ∧
    call_cpp_engine ["happy"] (.exited 0 "oops" "") =
      .error ("Failed to parse C++ output: " ++ "Expecting value: line 1 column 1 (char 0)") :=
  ⟨interop_error_classification.2.2.1 ["happy"] 1 "ignored" "boom" (by norm_num),
   interop_error_classification.2.2.2.1 ["happy"] "oops" ""
     "Expecting value: line 1 column 1 (char 0)" rfl⟩

/-- C4 (counterexample to the claim as stated): two different malformed
stdout texts produce the identical failure message, so the
malformed-output failure does not carry the raw output. -/
theorem interop_malformed_counterexample :
    call_cpp_engine ["happy"] (.exited 0 "garbage" "") =
      .error "Failed to parse C++ output: Expecting value: line 1 column 1 (char 0)" ∧
    call_cpp_engine ["happy"] (.exited 0 "horrible" "") =
      .error "Failed to parse C++ output: Expecting value: line 1 column 1 (char 0)" ∧
    "garbage" ≠ "horrible" :=
  ⟨rfl, rfl, by decide⟩

/-- C5: the engine is invoked with the executable and exactly two
positional arguments — the catalog path and the moods joined by single
commas (no surrounding whitespace, no trailing comma, as the join
recurrence shows) — and stdout/stderr are consumed separately: the result
on a zero exit does not depend on stderr, and the result on a non-zero
exit does not depend on stdout. -/
theorem interop_invocation_protocol :
    (∀ emotions, cppCommand emotions = [CPP_EXECUTABLE, SONGS_CSV, commaJoin emotions] ∧
        (cppCommand emotions).length = 3) ∧
    (commaJoin [] = "") ∧
    (∀ m ms, commaJoin (m :: ms) =
        m ++ (if ms = [] then "" else "," ++ commaJoin ms)) ∧
    (∀ emotions out e1 e2, call_cpp_engine emotions (.exited 0 out e1) =
        call_cpp_engine emotions (.exited 0 out e2)) ∧
    (∀ emotions (code : Int) o1 o2 err, code ≠ 0 →
        call_cpp_engine emotions (.exited code o1 err) =
          call_cpp_engine emotions (.exited code o2 err)) := by
  refine ⟨fun _ => ⟨rfl, rfl⟩, rfl, ?_, ?_, ?_⟩
  · intro m ms
    rcases ms with _ | ⟨x, xs⟩
    · simp [commaJoin]
    · simp [commaJoin, String.append_assoc]
  · intro emotions out e1 e2
    simp [call_cpp_engine]
  · intro emotions code o1 o2 err hc
    simp [call_cpp_engine, hc]

/-- Witness for C5 at concrete inputs: joining two moods inserts exactly
one comma, and a non-zero exit ignores stdout. -/
theorem interop_invocation_protocol_witness :
    commaJoin ["happy", "sad"] =
      "happy" ++ (if (["sad"] : List String) = [] then "" else "," ++ commaJoin ["sad"]) ∧
    call_cpp_engine ["happy"] (.exited 2 "outA" "err") =
      call_cpp_engine ["happy"] (.exited 2 "outB" "err") :=
  ⟨interop_invocation_protocol.2.2.1 "happy" ["sad"],
   interop_invocation_protocol.2.2.2.2 ["happy"] 2 "outA" "outB" "err" (by norm_num)⟩

/-- Modelled from the spec (data-model section): the `PlaylistResult`
invariant `count == length(songs)`, used to compare the handler's
pass-through behavior against the specified shape. -/
def playlistCountOk (songs count : JVal) : Prop :=
  ∃ xs : List JVal, songs = .arr xs ∧ count = .num (xs.length : Int)

/-- C8 (amended): a successful playlist response passes the engine's
`songs` and `count` fields through verbatim from the parsed stdout,
without checking `count == length(songs)`; in particular the
one-song/count-1 scenario from the spec produces a response satisfying
the invariant. -/
theorem playlist_count_passthrough :
    (∀ (data : Option PlaylistBody) (outcome : ProcOutcome)
        (ems : List String) (songs count : JVal),
        generate_playlist data outcome = (200, .playlistOk ems songs count) →
        ∃ j, call_cpp_engine ems outcome = .ok j ∧
          getItem j "songs" = .ok songs ∧ getItem j "count" = .ok count) ∧
    (generate_playlist (some ⟨.list [.str "happy"]⟩)
        (.exited 0 "\x7b\"songs\":[\x7b\"id\":1\x7d],\"count\":1\x7d" "") =
      (200, .playlistOk ["happy"] (.arr [.obj [("id", .num 1)]]) (.num 1)) ∧
      playlistCountOk (.arr [.obj [("id", .num 1)]]) (.num 1)) := by
  constructor
  · intro data outcome ems songs count h
    rcases data with _ | body
    · simp [generate_playlist] at h
    · rcases body with ⟨ef⟩
      rcases ef with _ | _ | xs
      · simp [generate_playlist] at h
      · simp [generate_playlist] at h
      · by_cases hxs : xs.isEmpty
        · simp [generate_playlist, hxs] at h
        · rcases hval : allValidStrings xs with _ | emotions
          · simp [generate_playlist, hxs, hval] at h
          · rcases hcall : call_cpp_engine emotions outcome with e | j
            · simp [generate_playlist, hxs, hval, hcall] at h
            · rcases hsongs : getItem j "songs" with e | songs0
              · simp [generate_playlist, hxs, hval, hcall, hsongs] at h
              · rcases hcount : getItem j "count" with e | count0
                · simp [generate_playlist, hxs, hval, hcall, hsongs, hcount] at h
                · simp only [generate_playlist, hxs, Bool.false_eq_true, if_false,
                    hval, hcall, hsongs, hcount, Prod.mk.injEq, Body.playlistOk.injEq] at h
                  obtain ⟨-, hee, hss, hcc⟩ := h
                  exact ⟨j, hee ▸ hcall, hss ▸ hsongs, hcc ▸ hcount⟩
  · exact ⟨rfl, [.obj [("id", .num 1)]], rfl, rfl⟩

/-- Witness for C8 (amended) at a concrete success: the fields of the
response are exactly the parsed engine fields. -/
theorem playlist_count_passthrough_witness :
    ∃ j, call_cpp_engine ["happy"]
        (.exited 0 "\x7b\"songs\":[],\"count\":2\x7d" "") = .ok j ∧
      getItem j "songs" = .ok (.arr []) ∧ getItem j "count" = .ok (.num 2) :=
  playlist_count_passthrough.1 (some ⟨.list [.str "happy"]⟩)
    (.exited 0 "\x7b\"songs\":[],\"count\":2\x7d" "") ["happy"] (.arr []) (.num 2) rfl

/-- C8 (counterexample to the claim as stated): the engine output
`{"songs":[],"count":1}` parses, the handler returns it verbatim with
HTTP 200, and the returned `count` is 1 while `songs` is empty — the
invariant `count == length(songs)` is not enforced. -/
theorem playlist_count_mismatch_counterexample :
    generate_playlist (some ⟨.list [.str "happy"]⟩)
        (.exited 0 "\x7b\"songs\":[],\"count\":1\x7d" "") =
      (200, .playlistOk ["happy"] (.arr []) (.num 1)) ∧
    ¬ playlistCountOk (.arr []) (.num 1) := by
  refine ⟨rfl, ?_⟩
  rintro ⟨xs, hs, hc⟩
  injection hs with hxs
  subst hxs
  injection hc with hn
  exact absurd hn (by norm_num)

/-- C6 (counterexample to the claim as stated): a classify request with
`topK = 0` and valid text is answered HTTP 200 with an empty result
(dominant `neutral`, confidence `0`), not rejected with a bad-input
error. -/
theorem topk_nonpositive_counterexample :
    classify_emotion (some ⟨some (.str "I am happy"), 0, 1/10⟩) [82/100, 15/100, 3/100] =
      (200, .classifyOk ⟨"I am happy", [], [], "neutral", 0⟩) := rfl

/-- C6 (amended): the classify handler performs no `topK` validation:
`topK = 0` silently yields a 200 response with an empty retained set,
and `topK < 0` surfaces as a generic 500 internal error (from the
`torch.topk` exception), so no `InvalidArgument` rejection happens for
non-positive `topK`. -/
theorem topk_nonpositive_behavior (t : String) (top_k : Int) (threshold : ℚ)
    (probs : List ℚ) (ht : (pyStrip t == "") = false) :
    (top_k = 0 → classify_emotion (some ⟨some (.str t), top_k, threshold⟩) probs =
        (200, .classifyOk ⟨t, [], [], "neutral", 0⟩)) ∧
    (top_k < 0 → classify_emotion (some ⟨some (.str t), top_k, threshold⟩) probs =
        (500, .envelope "Internal Server Error" "selected index k out of range")) := by
  constructor
  · rintro rfl
    have hmin : min (0 : Int) (probs.length : Int) = 0 :=
      min_eq_left (Int.ofNat_nonneg _)
    simp [classify_emotion, ht, classify, hmin, topkSelect, buildEmotions,
      sortedDedup, dedupAcc, sortStrs]
  · intro hneg
    have hmin : min top_k (probs.length : Int) = top_k :=
      min_eq_left (le_trans (le_of_lt hneg) (Int.ofNat_nonneg _))
    simp [classify_emotion, ht, classify, hmin, hneg]

/-- Witness for C6 (amended) at concrete requests with `topK = 0` and
`topK = -1`. -/
theorem topk_nonpositive_behavior_witness :
    classify_emotion (some ⟨some (.str "hi"), 0, 1/10⟩) [1/2] =
      (200, .classifyOk ⟨"hi", [], [], "neutral", 0⟩) ∧
    classify_emotion (some ⟨some (.str "hi"), -1, 1/10⟩) [1/2] =
      (500, .envelope "Internal Server Error" "selected index k out of range") :=
  ⟨(topk_nonpositive_behavior "hi" 0 (1/10) [1/2] rfl).1 rfl,
   (topk_nonpositive_behavior "hi" (-1) (1/10) [1/2] rfl).2 (by norm_num)⟩

/-- C7 (amended): every failing request to any of the three handlers is
answered with exactly one structured envelope, whose kind determines the
status classification (`Bad Request` at 400 for bad input, `Internal
Server Error` at 500 for everything else); however internal failures are
not sanitized: the 500 envelope's message is the exception text
`str(e)` echoed verbatim, as the engine-failure conjunct shows. -/
theorem error_envelope_uniform :
    (∀ data probs st b, classify_emotion data probs = (st, b) → st ≠ 200 →
      ∃ k m, b = .envelope k m ∧
        ((st = 400 ∧ k = "Bad Request") ∨ (st = 500 ∧ k = "Internal Server Error"))) ∧
    (∀ data outcome st b, generate_playlist data outcome = (st, b) → st ≠ 200 →
      ∃ k m, b = .envelope k m ∧
        ((st = 400 ∧ k = "Bad Request") ∨ (st = 500 ∧ k = "Internal Server Error"))) ∧
    (∀ data probs outcome st b, generate_full_playlist data probs outcome = (st, b) →
      st ≠ 200 →
      ∃ k m, b = .envelope k m ∧
        ((st = 400 ∧ k = "Bad Request") ∨ (st = 500 ∧ k = "Internal Server Error"))) ∧
    (∀ xs emotions outcome e, allValidStrings xs = some emotions → xs.isEmpty = false →
      call_cpp_engine emotions outcome = .error e →
      generate_playlist (some ⟨.list xs⟩) outcome =
        (500, .envelope "Internal Server Error" e)) := by
  refine ⟨?_, ?_, ?_, ?_⟩
  · intro data probs st b h hne
    rcases data with _ | ⟨textf, tk, th⟩
    · cases h
      exact ⟨_, _, rfl, Or.inl ⟨rfl, rfl⟩⟩
    · rcases textf with _ | tv
      · cases h
        exact ⟨_, _, rfl, Or.inl ⟨rfl, rfl⟩⟩
      · rcases tv with t | _
        · by_cases hts : (pyStrip t == "") = true
          · simp only [classify_emotion, if_pos hts] at h
            cases h
            exact ⟨_, _, rfl, Or.inl ⟨rfl, rfl⟩⟩
          · rw [Bool.not_eq_true] at hts
            rcases hc : classify t probs tk th with e | r
            · simp only [classify_emotion, hts, Bool.false_eq_true, if_false, hc] at h
              cases h
              exact ⟨_, _, rfl, Or.inr ⟨rfl, rfl⟩⟩
            · simp only [classify_emotion, hts, Bool.false_eq_true, if_false, hc] at h
              cases h
              exact absurd rfl hne
        · cases h
          exact ⟨_, _, rfl, Or.inl ⟨rfl, rfl⟩⟩
  · intro data outcome st b h hne
    rcases data with _ | ⟨ef⟩
    · cases h
      exact ⟨_, _, rfl, Or.inl ⟨rfl, rfl⟩⟩
    · rcases ef with _ | _ | xs
      · cases h
        exact ⟨_, _, rfl, Or.inl ⟨rfl, rfl⟩⟩
      · cases h
        exact ⟨_, _, rfl, Or.inl ⟨rfl, rfl⟩⟩
      · by_cases hxs : xs.isEmpty = true
        · simp only [generate_playlist, if_pos hxs] at h
          cases h
          exact ⟨_, _, rfl, Or.inl ⟨rfl, rfl⟩⟩
        · rw [Bool.not_eq_true] at hxs
          rcases hval : allValidStrings xs with _ | emotions
          · simp only [generate_playlist, hxs, Bool.false_eq_true, if_false, hval] at h
            cases h
            exact ⟨_, _, rfl, Or.inl ⟨rfl, rfl⟩⟩
          · rcases hcall : call_cpp_engine emotions outcome with e | j
            · simp only [generate_playlist, hxs, Bool.false_eq_true, if_false, hval,
                hcall] at h
              cases h
              exact ⟨_, _, rfl, Or.inr ⟨rfl, rfl⟩⟩
            · rcases hsongs : getItem j "songs" with e | songs0
              · simp only [generate_playlist, hxs, Bool.false_eq_true, if_false, hval,
                  hcall, hsongs] at h
                cases h
                exact ⟨_, _, rfl, Or.inr ⟨rfl, rfl⟩⟩
              · rcases hcount : getItem j "count" with e | count0
                · simp only [generate_playlist, hxs, Bool.false_eq_true, if_false, hval,
                    hcall, hsongs, hcount] at h
                  cases h
                  exact ⟨_, _, rfl, Or.inr ⟨rfl, rfl⟩⟩
                · simp only [generate_playlist, hxs, Bool.false_eq_true, if_false, hval,
                    hcall, hsongs, hcount] at h
                  cases h
                  exact absurd rfl hne
  · intro data probs outcome st b h hne
    rcases data with _ | ⟨textf, tk, th⟩
    · cases h
      exact ⟨_, _, rfl, Or.inl ⟨rfl, rfl⟩⟩
    · rcases textf with _ | tv
      · cases h
        exact ⟨_, _, rfl, Or.inl ⟨rfl, rfl⟩⟩
      · rcases tv with t | _
        · rcases hc : classify t probs tk th with e | c
          · simp only [generate_full_playlist, hc] at h
            cases h
            exact ⟨_, _, rfl, Or.inr ⟨rfl, rfl⟩⟩
          · rcases hcall : call_cpp_engine (pipelineEmotions c) outcome with e | j
            · simp only [generate_full_playlist, hc, hcall] at h
              cases h
              exact ⟨_, _, rfl, Or.inr ⟨rfl, rfl⟩⟩
            · rcases hsongs : getItem j "songs" with e | songs0
              · simp only [generate_full_playlist, hc, hcall, hsongs] at h
                cases h
                exact ⟨_, _, rfl, Or.inr ⟨rfl, rfl⟩⟩
              · rcases hcount : getItem j "count" with e | count0
                · simp only [generate_full_playlist, hc, hcall, hsongs, hcount] at h
                  cases h
                  exact ⟨_, _, rfl, Or.inr ⟨rfl, rfl⟩⟩
                · simp only [generate_full_playlist, hc, hcall, hsongs, hcount] at h
                  cases h
                  exact absurd rfl hne
        · cases h
          exact ⟨_, _, rfl, Or.inr ⟨rfl, rfl⟩⟩
  · intro xs emotions outcome e hval hxs hcall
    simp only [generate_playlist, hxs, Bool.false_eq_true, if_false, hval, hcall]

/-- Witness for C7 (amended): a missing-body classify request yields the
400 envelope, and an engine timeout is echoed verbatim in the playlist
500 envelope. -/
theorem error_envelope_uniform_witness :
    (∃ k m, (Body.envelope "Bad Request" "Missing required field: text") = .envelope k m ∧
      (((400 : Nat) = 400 ∧ k = "Bad Request") ∨
        ((400 : Nat) = 500 ∧ k = "Internal Server Error"))) ∧
    generate_playlist (some ⟨.list [.str "happy"]⟩) .timedOut =
      (500, .envelope "Internal Server Error" "C++ engine timeout") :=
  ⟨error_envelope_uniform.1 none [] 400 (.envelope "Bad Request" "Missing required field: text")
     rfl (by norm_num),
   error_envelope_uniform.2.2.2 [.str "happy"] ["happy"] .timedOut "C++ engine timeout"
     rfl rfl rfl⟩

/-- C7 (counterexample to the claim as stated): on an internal engine
failure the playlist handler echoes the full internal exception text —
including the server-side executable path — verbatim in the envelope
message, rather than a sanitized safe message. -/
theorem internal_detail_echoed_counterexample :
    generate_playlist (some ⟨.list [.str "happy"]⟩) .launchFailure =
      (500, .envelope "Internal Server Error"
        ("C++ executable not found at " ++ CPP_EXECUTABLE)) ∧
    call_cpp_engine ["happy"] .launchFailure =
      .error ("C++ executable not found at " ++ CPP_EXECUTABLE) :=
  ⟨rfl, rfl⟩

end EmotionPlaylist
